import Mathlib

set_option maxRecDepth 16000

/-!
Shallow embedding of the classification engine of `analysis_model_api`
(`app/services/sentiment_service.py`, `app/services/stance_service.py`,
`app/utils/cache_manager.py`).  Text is modelled as `List Char`, Python
floats as `ℚ`, the external VADER polarity primitive as an abstract
function argument `pol : List Char → ScoreVector`.
-/

namespace AnalysisModel

/-- The four-part score vector returned by the polarity primitive
(`polarity_scores`): compound, pos, neu, neg. -/
structure ScoreVector where
  compound : ℚ
  pos : ℚ
  neu : ℚ
  neg : ℚ
deriving DecidableEq, Repr

/-! ### Python string primitives (ASCII model) -/

/-- Python whitespace (`str.strip`, `\s`, `str.split`), ASCII range. -/
def pyIsSpace (c : Char) : Bool :=
  c = ' ' || c = '\t' || c = '\n' || c = '\x0b' || c = '\x0c' || c = '\r'

/-- Python `str.isalnum` (ASCII model). -/
def pyIsAlnum (c : Char) : Bool := c.isAlphanum

/-- Regex `\w` (ASCII model): letters, digits, underscore. -/
def isWordChar (c : Char) : Bool := c.isAlphanum || c = '_'

/-- Regex `\d` (ASCII model). -/
def isDigitChar (c : Char) : Bool := c.isDigit

/-- Python `str.strip()`. -/
def pyStrip (l : List Char) : List Char :=
  ((l.dropWhile pyIsSpace).reverse.dropWhile pyIsSpace).reverse

/-- `re.sub(r'\s+', ' ', ·)`: replace each maximal whitespace run by a
single blank (a blank is emitted at the end of each run). -/
def squeezeWS : List Char → List Char
  | [] => []
  | [c] => if pyIsSpace c then [' '] else [c]
  | c :: d :: rest =>
    if pyIsSpace c then
      if pyIsSpace d then squeezeWS (d :: rest)
      else ' ' :: squeezeWS (d :: rest)
    else c :: squeezeWS (d :: rest)

/-- Word accumulator for `pySplit` (the accumulator holds the current
word reversed). -/
def pySplitAux : List Char → List Char → List (List Char)
  | [], [] => []
  | [], acc => [acc.reverse]
  | c :: rest, acc =>
    if pyIsSpace c then
      match acc with
      | [] => pySplitAux rest []
      | _ => acc.reverse :: pySplitAux rest []
    else pySplitAux rest (c :: acc)

/-- Python `str.split()` (split on whitespace runs, no empty words). -/
def pySplit (l : List Char) : List (List Char) := pySplitAux l []

/-- Python `str.lower()` (ASCII model). -/
def pyLower (l : List Char) : List Char := l.map Char.toLower

/-- Python slice `l[a:b]` for `0 ≤ a, b` (indices already clipped by the
callers via `max 0` / `min len`). -/
def pySlice (l : List Char) (a b : Nat) : List Char := (l.take b).drop a

/-- Tail of `collapseRepeats`: `prev` is the character of the current
run and `count` how many copies of it have been emitted (saturating at
3: once 3 copies are out, further repeats are dropped). -/
def collapseRepeatsAux : List Char → Char → Nat → List Char
  | [], _, _ => []
  | c :: rest, prev, count =>
    if c = prev then
      if 3 ≤ count then collapseRepeatsAux rest prev count
      else c :: collapseRepeatsAux rest prev (count + 1)
    else c :: collapseRepeatsAux rest c 1

/-- `re.sub(r'(.)\1{3,}', r'\1\1\1', ·)`: every maximal run of 4 or more
identical characters is replaced by exactly 3 copies.  (The regex dot
does not match a newline, but this is only applied to whitespace-squeezed
text, which contains none.) -/
def collapseRepeats : List Char → List Char
  | [] => []
  | c :: rest => c :: collapseRepeatsAux rest c 1

/-- Tail of `rle`: the current run character and its count so far. -/
def rleAux : List Char → Char → Nat → List (Char × Nat)
  | [], c, n => [(c, n)]
  | d :: rest, c, n =>
    if d = c then rleAux rest c (n + 1) else (c, n) :: rleAux rest d 1

/-- Run-length encoding of a list (used to state what `collapseRepeats`
does to character runs). -/
def rle : List Char → List (Char × Nat)
  | [] => []
  | c :: rest => rleAux rest c 1

/-- Characters stripped from candidate words before lexicon lookup
(Python `word.strip('.,!?;:"()[]\x7b\x7d')`; note: no apostrophe). -/
def punctStripSet : List Char :=
  ['.', ',', '!', '?', ';', ':', '\"', '(', ')', '[', ']', '\x7b', '\x7d']

/-- Python `str.strip('.,!?;:"()[]\x7b\x7d')`. -/
def stripPunct (w : List Char) : List Char :=
  ((w.dropWhile (· ∈ punctStripSet)).reverse.dropWhile
    (· ∈ punctStripSet)).reverse

/-- Number of whitespace-separated words. -/
def wordCount (l : List Char) : Nat := (pySplit l).length

/-- Python string-truthiness test used by the guards:
`not text or not text.strip()`. -/
def pyBlank (l : List Char) : Bool := l.isEmpty || (pyStrip l).isEmpty

/-- Substring test on strings (used for the warning-content claims). -/
def containsSub (s sub : String) : Bool :=
  (List.range (s.data.length + 1)).any fun i => sub.data.isPrefixOf (s.data.drop i)

/-! ### Sentiment service (`app/services/sentiment_service.py`) -/

/-- `SentimentResult`. -/
structure SentimentResult where
  sentiment : String
  confidence : ℚ
  scores : ScoreVector
  fallback_used : Bool
  warning : Option String
deriving DecidableEq, Repr

/-- The neutral score dictionary used by the sentiment fallbacks:
`{'compound': 0.0, 'pos': 0.0, 'neu': 1.0, 'neg': 0.0}`. -/
def neutralScores : ScoreVector := ⟨0, 0, 1, 0⟩

/-- `SentimentService._preprocess_text`: collapse whitespace, then
collapse runs of more than 3 identical characters. -/
def preprocess_text (text : List Char) : List Char :=
  if pyBlank text then []
  else collapseRepeats (squeezeWS (pyStrip text))

/-- `SentimentService._calculate_symbol_ratio`: (count of `[^\w\s]`
characters plus count of `\d` characters) divided by the length. -/
def calculate_symbol_ratio (text : List Char) : ℚ :=
  if text = [] then 0
  else
    let symbolCount := (text.filter fun c => ¬ isWordChar c && ¬ pyIsSpace c).length
    let numberCount := (text.filter isDigitChar).length
    ((symbolCount + numberCount : Nat) : ℚ) / (text.length : ℚ)

/-- `SentimentService._classify_sentiment`: thresholds ±0.05 on the
compound score. -/
def classify_sentiment (scores : ScoreVector) : String :=
  if scores.compound ≥ 0.05 then "positive"
  else if scores.compound ≤ -0.05 then "negative"
  else "normal"

/-- `SentimentService._calculate_confidence`. -/
def calculate_confidence (scores : ScoreVector)
    (original processed : List Char) : ℚ :=
  let base0 : ℚ := |scores.compound|
  let maxSentiment := max scores.pos (max scores.neg scores.neu)
  let base1 : ℚ :=
    if maxSentiment > 0.6 then min 1 (base0 + 0.1)
    else if maxSentiment < 0.4 then max 0.1 (base0 - 0.1)
    else base0
  let base2 : ℚ :=
    if original ≠ [] ∧ processed ≠ [] then
      let wc := wordCount processed
      let base1a : ℚ :=
        if wc < 3 then max 0.1 (base1 - 0.2)
        else if wc < 5 then max 0.1 (base1 - 0.1)
        else base1
      let lengthRatio : ℚ :=
        if original.length > 0 then (processed.length : ℚ) / (original.length : ℚ)
        else 1
      if lengthRatio < 0.5 then max 0.1 (base1a - 0.15) else base1a
    else base1
  max 0.1 (min 1 base2)

/-- Warning strings of the sentiment service (f-strings of the source). -/
def emptyTextWarning : String := "Empty or whitespace-only text provided"

def tooShortWarning (n : Nat) : String :=
  "Text too short (" ++ toString n ++
    " chars). Minimum 3 characters required for reliable analysis."

def truncatedWarning (n : Nat) : String :=
  "Text truncated from " ++ toString n ++ " to 5000 characters for analysis."

/-- Renders a ratio the way Python `:.1%` does for the values arising
here (one decimal of the percentage, round-half-up model). -/
def percent1 (q : ℚ) : String :=
  let m : Nat := (⌊q * 1000 + 1/2⌋).toNat
  toString (m / 10) ++ "." ++ toString (m % 10) ++ "%"

def tooManySymbolsWarning (ratio : ℚ) : String :=
  "Text contains too many symbols (" ++ percent1 ratio ++
    "). Unable to extract meaningful content."

def highSymbolWarning (ratio : ℚ) : String :=
  "High symbol ratio (" ++ percent1 ratio ++
    ") detected. Analysis based on extracted text."

def veryShortWarning (wc : Nat) : String :=
  "Very short text (" ++ toString wc ++ " words). Analysis may be less reliable."

/-- The cleaned text of the symbol-heavy branch:
`re.sub(r'[^\w\s.,!?;:\'"()-]', ' ', text)` followed by
`re.sub(r'\s+', ' ', ·.strip())`. -/
def meaningfulText (text : List Char) : List Char :=
  let keep : Char → Bool := fun c =>
    isWordChar c || pyIsSpace c ||
      c ∈ ['.', ',', '!', '?', ';', ':', '\'', '\"', '(', ')', '-']
  squeezeWS (pyStrip (text.map fun c => if keep c then c else ' '))

/-- `SentimentService._check_text_length`. -/
def sentiment_check_text_length (pol : List Char → ScoreVector)
    (text : List Char) : Option SentimentResult :=
  let textLength := (pyStrip text).length
  if textLength < 3 then
    some ⟨"normal", 0.1, neutralScores, true, some (tooShortWarning textLength)⟩
  else if textLength > 5000 then
    let truncated := text.take 5000
    let processed := preprocess_text truncated
    let scores := pol processed
    let sentiment := classify_sentiment scores
    let confidence := calculate_confidence scores truncated processed
    some ⟨sentiment, max 0.1 (confidence - 0.2), scores, true,
      some (truncatedWarning textLength)⟩
  else none

/-- `SentimentService._handle_special_cases`. -/
def handle_special_cases (pol : List Char → ScoreVector)
    (original processed : List Char) : Option SentimentResult :=
  let symbolRatio := calculate_symbol_ratio original
  if symbolRatio > 0.7 then
    let meaningful := meaningfulText original
    if (pySplit meaningful).length < 2 then
      some ⟨"normal", 0.1, neutralScores, true,
        some (tooManySymbolsWarning symbolRatio)⟩
    else
      let scores := pol meaningful
      let sentiment := classify_sentiment scores
      let confidence := calculate_confidence scores meaningful meaningful
      some ⟨sentiment, max 0.1 (confidence - 0.3), scores, true,
        some (highSymbolWarning symbolRatio)⟩
  else
    let wc := wordCount processed
    if wc < 3 then
      let scores := pol processed
      let sentiment := classify_sentiment scores
      let confidence := calculate_confidence scores original processed
      some ⟨sentiment, max 0.1 (confidence - 0.2), scores, true,
        some (veryShortWarning wc)⟩
    else none

/-- The fallback returned for empty or whitespace-only text. -/
def emptySentimentResult : SentimentResult :=
  ⟨"normal", 0.1, neutralScores, true, some emptyTextWarning⟩

/-- The part of `SentimentService.analyze_sentiment` after the empty
guard, the cache lookup and the length check. -/
def sentimentMain (pol : List Char → ScoreVector)
    (text : List Char) : SentimentResult :=
  let processed := preprocess_text text
  match handle_special_cases pol text processed with
  | some r => r
  | none =>
    let scores := pol processed
    ⟨classify_sentiment scores, calculate_confidence scores text processed,
      scores, false, none⟩

/-- `SentimentService.analyze_sentiment`, with the cache stripped (the
value a cache miss computes). -/
def analyze_sentiment (pol : List Char → ScoreVector)
    (text : List Char) : SentimentResult :=
  if pyBlank text then emptySentimentResult
  else
    match sentiment_check_text_length pol text with
    | some r => r
    | none => sentimentMain pol text

/-! ### Stance service (`app/services/stance_service.py`) -/

/-- `StanceResult`. -/
structure StanceResult where
  stance : String
  confidence : ℚ
  target : List Char
  target_mentions : Nat
  context_sentiment : ℚ
  keyword_score : ℚ
  combined_score : ℚ
  consistency : ℚ
  fallback_used : Bool
  warning : Option String
deriving DecidableEq, Repr

/-- `POSITIVE_INDICATORS`. -/
def POSITIVE_INDICATORS : List String :=
  ["love", "like", "great", "excellent", "amazing", "wonderful", "fantastic",
   "good", "best", "awesome", "perfect", "brilliant", "outstanding", "superb",
   "support", "endorse", "recommend", "praise", "admire", "appreciate",
   "trust", "respect", "favor", "champion", "defend", "celebrate", "embrace"]

/-- `NEGATIVE_INDICATORS`. -/
def NEGATIVE_INDICATORS : List String :=
  ["hate", "dislike", "terrible", "awful", "horrible", "bad", "worst",
   "disgusting", "pathetic", "useless", "garbage", "trash", "sucks",
   "oppose", "against", "criticize", "condemn", "reject", "disapprove",
   "distrust", "despise", "attack", "blame", "fault", "boycott", "avoid",
   "overpriced", "worthless", "disappointing", "frustrated"]

/-- `INTENSIFIERS`. -/
def INTENSIFIERS : List String :=
  ["very", "extremely", "really", "totally", "completely", "absolutely"]

/-- `DIMINISHERS`. -/
def DIMINISHERS : List String :=
  ["somewhat", "slightly", "kind of", "sort of", "a bit", "rather"]

/-- `NEGATION_WORDS`. -/
def NEGATION_WORDS : List String :=
  ["not", "no", "never", "nothing", "nobody", "nowhere",
   "neither", "nor", "none", "don't", "doesn't", "didn't",
   "won't", "wouldn't", "can't", "couldn't", "shouldn't"]

/-- `StanceService._preprocess_text`: collapse whitespace (case kept). -/
def stance_preprocess_text (text : List Char) : List Char :=
  if pyBlank text then [] else squeezeWS (pyStrip text)

/-- `StanceService._preprocess_target`. -/
def preprocess_target (target : List Char) : List Char :=
  if pyBlank target then [] else squeezeWS (pyStrip target)

/-- `StanceService._is_word_boundary_match`: the characters just before
and just after the match are absent or not alphanumeric. -/
def is_word_boundary_match (text target : List Char) (pos : Nat) : Bool :=
  (decide (pos = 0) || ! pyIsAlnum (text.getD (pos - 1) ' ')) &&
    (decide (text.length ≤ pos + target.length) ||
      ! pyIsAlnum (text.getD (pos + target.length) ' '))

/-- All positions at which `target` occurs in `text` as a word-boundary
match (the `find`-loop of `_find_target_mentions` collects exactly the
occurrence positions, filtered by `_is_word_boundary_match`). -/
def boundaryMatches (text target : List Char) : List Nat :=
  (List.range (text.length + 1)).filter fun p =>
    target.isPrefixOf (text.drop p) && is_word_boundary_match text target p

/-- The sub-word pass of `_find_target_mentions`: a sub-word occurrence
is kept only if no already-collected position lies within
`target.length` of it. -/
def addSubwordMatches (targetLen : Nat) (cands positions : List Nat) : List Nat :=
  cands.foldl
    (fun acc pos =>
      if acc.any fun e => (pos - e) + (e - pos) < targetLen then acc
      else acc ++ [pos])
    positions

/-- Insertion into a sorted duplicate-free list (models
`sorted(list(set(·)))`). -/
def insertSorted (n : Nat) : List Nat → List Nat
  | [] => [n]
  | m :: rest =>
    if n < m then n :: m :: rest
    else if n = m then m :: rest
    else m :: insertSorted n rest

/-- `sorted(list(set(·)))`. -/
def sortedDedup (l : List Nat) : List Nat := l.foldr insertSorted []

/-- `StanceService._find_target_mentions`. -/
def find_target_mentions (text target : List Char) : List Nat :=
  if text = [] ∨ target = [] then []
  else
    let textLower := pyLower text
    let targetLower := pyLower target
    let exact := boundaryMatches textLower targetLower
    let targetWords := pySplit targetLower
    let positions :=
      if targetWords.length > 1 then
        targetWords.foldl
          (fun acc w =>
            if w.length > 2 then
              addSubwordMatches targetLower.length (boundaryMatches textLower w) acc
            else acc)
          exact
      else exact
    sortedDedup positions

/-- `StanceService._find_target_word_position`: midpoint approximation. -/
def find_target_word_position (contextWords : List (List Char)) : Nat :=
  contextWords.length / 2

/-- `StanceService._apply_modifiers`: scan 2 words before and after; the
first intensifier multiplies by 1.5, the first diminisher by 0.7. -/
def apply_modifiers (words : List (List Char)) (wordIdx : Nat) (base : ℚ) : ℚ :=
  modScan (List.range' (wordIdx - 2) (min words.length (wordIdx + 3) - (wordIdx - 2)))
where
  modScan : List Nat → ℚ
    | [] => base
    | i :: rest =>
      if i = wordIdx then modScan rest
      else
        let w := String.mk (stripPunct (words.getD i []))
        if w ∈ INTENSIFIERS then base * 1.5
        else if w ∈ DIMINISHERS then base * 0.7
        else modScan rest

/-- `StanceService._apply_negation`: a negation word among the 3 words
before the indicator (or the word just before it) flips the sign. -/
def apply_negation (words : List (List Char)) (wordIdx : Nat) (base : ℚ) : ℚ :=
  negScan (List.range' (wordIdx - 3) (wordIdx - (wordIdx - 3)))
where
  negScan : List Nat → ℚ
    | [] =>
      if wordIdx > 0 ∧
          String.mk (stripPunct (words.getD (wordIdx - 1) [])) ∈ NEGATION_WORDS
      then -base else base
    | i :: rest =>
      if String.mk (stripPunct (words.getD i [])) ∈ NEGATION_WORDS then -base
      else negScan rest

/-- `StanceService._calculate_keyword_score`. -/
def calculate_keyword_score (words : List (List Char)) (targetPos : Nat) : ℚ :=
  let score :=
    (List.range' (targetPos - 10)
        (min words.length (targetPos + 10) - (targetPos - 10))).foldl
      (fun acc i =>
        let w := String.mk (stripPunct (words.getD i []))
        let distanceWeight : ℚ := 1 / (((i - targetPos) + (targetPos - i) : Nat) + 1 : ℚ)
        if w ∈ POSITIVE_INDICATORS then
          acc + apply_negation words i (apply_modifiers words i (1 * distanceWeight))
        else if w ∈ NEGATIVE_INDICATORS then
          acc + apply_negation words i (apply_modifiers words i (-1 * distanceWeight))
        else acc)
      0
  max (-1) (min 1 (score / 20))

/-- `StanceService._analyze_keyword_based_stance`. -/
def analyze_keyword_based_stance (text : List Char) (positions : List Nat) : ℚ :=
  if positions = [] then 0
  else
    let textLower := pyLower text
    let scores := positions.map fun pos =>
      let context := pySlice textLower (pos - 100) (min text.length (pos + 100))
      let contextWords := pySplit context
      calculate_keyword_score contextWords (find_target_word_position contextWords)
    if scores = [] then 0 else scores.sum / (scores.length : ℚ)

/-- `StanceService._analyze_context_sentiment`. -/
def analyze_context_sentiment (pol : List Char → ScoreVector)
    (text : List Char) (positions : List Nat) : ℚ :=
  if positions = [] then 0
  else
    let sentiments := positions.map fun pos =>
      (pol (pySlice text (pos - 50) (min text.length (pos + 50)))).compound
    if sentiments = [] then 0 else sentiments.sum / (sentiments.length : ℚ)

/-- `StanceService._check_stance_consistency`. -/
def check_stance_consistency (pol : List Char → ScoreVector)
    (text : List Char) (positions : List Nat) : ℚ :=
  if positions.length ≤ 1 then 1
  else
    let stanceScores := positions.map fun pos =>
      (pol (pySlice text (pos - 50) (min text.length (pos + 50)))).compound
    if stanceScores = [] then 1
    else
      let mean := stanceScores.sum / (stanceScores.length : ℚ)
      let variance :=
        (stanceScores.map fun s => (s - mean) ^ 2).sum / (stanceScores.length : ℚ)
      max 0 (1 - variance * 2)

/-- `StanceService._combine_stance_signals`. -/
def combine_stance_signals (sentimentScore keywordScore : ℚ) : ℚ :=
  let combined := sentimentScore * 0.4 + keywordScore * 0.6
  let combined :=
    if |sentimentScore| > 0.3 ∧ |keywordScore| > 0.3 then
      if (sentimentScore > 0 ∧ keywordScore > 0) ∨
          (sentimentScore < 0 ∧ keywordScore < 0) then combined * 1.2
      else combined
    else combined
  max (-1) (min 1 combined)

/-- `StanceService._classify_stance`: thresholds ±0.12. -/
def classify_stance (combinedScore : ℚ) : String :=
  if combinedScore > 0.12 then "supportive"
  else if combinedScore < -0.12 then "opposing"
  else "neutral"

/-- The straight-line tail of `StanceService._calculate_confidence`
(everything after the mention-count adjustment). -/
def stanceConfidenceTail (base : ℚ) (combinedScore : ℚ)
    (text target : List Char) (consistency : ℚ) : ℚ :=
  let b1 := base * consistency
  let wc := wordCount text
  let b2 :=
    if wc < 5 then max 0.1 (b1 - 0.2)
    else if wc > 50 then min 1 (b1 + 0.1)
    else b1
  let b3 := if (pySplit target).length > 1 then min 1 (b2 + 0.05) else b2
  let b4 := if |combinedScore| > 0.7 then min 1 (b3 + 0.1) else b3
  max 0.1 (min 1 b4)

/-- `StanceService._calculate_confidence`. -/
def stance_calculate_confidence (combinedScore : ℚ) (mentionCount : Nat)
    (text target : List Char) (consistency : ℚ) : ℚ :=
  let base := |combinedScore|
  if mentionCount > 1 then
    stanceConfidenceTail (min 1 (base + 0.1)) combinedScore text target consistency
  else if mentionCount = 0 then 0.1
  else stanceConfidenceTail base combinedScore text target consistency

/-- Warning strings of the stance service. -/
def emptyTargetWarning : String := "Empty or whitespace-only target provided"

def targetNotFoundWarning (target : List Char) : String :=
  "Target '" ++ String.mk target ++ "' not found in the provided text"

def truncatedNotFoundWarning (n : Nat) : String :=
  "Text truncated from " ++ toString n ++
    " to 5000 characters. Target not found in truncated text."

/-- The fallback for empty or whitespace-only text (stance). -/
def emptyTextStanceResult (target : List Char) : StanceResult :=
  ⟨"neutral", 0.1, target, 0, 0, 0, 0, 1, true, some emptyTextWarning⟩

/-- The fallback for an empty or whitespace-only target. -/
def emptyTargetStanceResult (target : List Char) : StanceResult :=
  ⟨"neutral", 0.1, (if target = [] then [] else target), 0, 0, 0, 0, 1, true,
    some emptyTargetWarning⟩

/-- The fallback when the target is not found in the text. -/
def targetNotFoundResult (target : List Char) : StanceResult :=
  ⟨"neutral", 0.1, target, 0, 0, 0, 0, 1, true, some (targetNotFoundWarning target)⟩

/-- `StanceService._check_text_length`. -/
def stance_check_text_length (pol : List Char → ScoreVector)
    (text target : List Char) : Option StanceResult :=
  let textLength := (pyStrip text).length
  if textLength < 3 then
    some ⟨"neutral", 0.1, target, 0, 0, 0, 0, 1, true,
      some (tooShortWarning textLength)⟩
  else if textLength > 5000 then
    let truncated := text.take 5000
    let processedText := stance_preprocess_text truncated
    let processedTarget := preprocess_target target
    let targetPositions := find_target_mentions processedText processedTarget
    if targetPositions = [] then
      some ⟨"neutral", 0.1, target, 0, 0, 0, 0, 1, true,
        some (truncatedNotFoundWarning textLength)⟩
    else
      let contextSentiment := analyze_context_sentiment pol processedText targetPositions
      let keywordScore := analyze_keyword_based_stance processedText targetPositions
      let combinedScore := combine_stance_signals contextSentiment keywordScore
      let consistency := check_stance_consistency pol processedText targetPositions
      let stance := classify_stance combinedScore
      let confidence := stance_calculate_confidence combinedScore
        targetPositions.length processedText processedTarget consistency
      some ⟨stance, max 0.1 (confidence - 0.2), target, targetPositions.length,
        contextSentiment, keywordScore, combinedScore, consistency, true,
        some (truncatedWarning textLength)⟩
  else none

/-- The part of `StanceService.analyze_stance` after the guards, the
cache lookup and the length check. -/
def stanceMain (pol : List Char → ScoreVector)
    (text target : List Char) : StanceResult :=
  let processedText := stance_preprocess_text text
  let processedTarget := preprocess_target target
  let targetPositions := find_target_mentions processedText processedTarget
  if targetPositions = [] then targetNotFoundResult target
  else
    let contextSentiment := analyze_context_sentiment pol processedText targetPositions
    let keywordScore := analyze_keyword_based_stance processedText targetPositions
    let combinedScore := combine_stance_signals contextSentiment keywordScore
    let consistency := check_stance_consistency pol processedText targetPositions
    let stance := classify_stance combinedScore
    let confidence := stance_calculate_confidence combinedScore
      targetPositions.length processedText processedTarget consistency
    ⟨stance, confidence, target, targetPositions.length, contextSentiment,
      keywordScore, combinedScore, consistency, false, none⟩

/-- `StanceService.analyze_stance`, with the cache stripped (the value a
cache miss computes). -/
def analyze_stance (pol : List Char → ScoreVector)
    (text target : List Char) : StanceResult :=
  if pyBlank text then emptyTextStanceResult target
  else if pyBlank target then emptyTargetStanceResult target
  else
    match stance_check_text_length pol text target with
    | some r => r
    | none => stanceMain pol text target

/-! ### Result cache (`app/utils/cache_manager.py`)

The cache key is `md5` of the request content; the hash is modelled as
the hashed content itself (i.e. assumed collision-free), and the TTL /
eviction bookkeeping, which is out of scope, is dropped: the store is a
plain association list where `set` prepends and `get` takes the first
match (newest entry wins, as for a Python dict update). -/

def cacheGet {κ α : Type} [DecidableEq κ] : List (κ × α) → κ → Option α
  | [], _ => none
  | (k2, v) :: rest, k => if k = k2 then some v else cacheGet rest k

def cacheSet {κ α : Type} (c : List (κ × α)) (k : κ) (v : α) : List (κ × α) :=
  (k, v) :: c

/-- `SentimentService.analyze_sentiment` with its cache interaction:
empty guard, cache lookup, then compute-and-store. -/
def analyze_sentiment_cached (pol : List Char → ScoreVector)
    (cache : List (List Char × SentimentResult)) (text : List Char) :
    SentimentResult × List (List Char × SentimentResult) :=
  if pyBlank text then (emptySentimentResult, cache)
  else
    match cacheGet cache text with
    | some r => (r, cache)
    | none =>
      match sentiment_check_text_length pol text with
      | some r => (r, cacheSet cache text r)
      | none =>
        let r := sentimentMain pol text
        (r, cacheSet cache text r)

/-- `StanceService.analyze_stance` with its cache interaction. -/
def analyze_stance_cached (pol : List Char → ScoreVector)
    (cache : List ((List Char × List Char) × StanceResult))
    (text target : List Char) :
    StanceResult × List ((List Char × List Char) × StanceResult) :=
  if pyBlank text then (emptyTextStanceResult target, cache)
  else if pyBlank target then (emptyTargetStanceResult target, cache)
  else
    match cacheGet cache (text, target) with
    | some r => (r, cache)
    | none =>
      match stance_check_text_length pol text target with
      | some r => (r, cacheSet cache (text, target) r)
      | none =>
        let r := stanceMain pol text target
        (r, cacheSet cache (text, target) r)

/-- A polarity primitive returning the all-neutral score vector (what
VADER returns on text without lexicon words); used for the concrete
evaluations. -/
def neutralPolarity : List Char → ScoreVector := fun _ => neutralScores

/-! ### Spec-side definitions (for the refinement-style claims) -/

/-- Confidence calibration as the spec sentence of claim C5 words it:
the same adjustments in the same order, but with the running value
clamped to [0.1, 1.0] after every step. -/
def claimStanceConfidence (combinedScore : ℚ) (mentionCount : Nat)
    (text target : List Char) (consistency : ℚ) : ℚ :=
  if mentionCount = 0 then 0.1
  else
    let clamp : ℚ → ℚ := fun x => max 0.1 (min 1 x)
    let s1 := clamp (if mentionCount > 1 then |combinedScore| + 0.1 else |combinedScore|)
    let s2 := clamp (s1 * consistency)
    let s3 := clamp (if wordCount text < 5 then s2 - 0.2
      else if wordCount text > 50 then s2 + 0.1 else s2)
    let s4 := clamp (if (pySplit target).length > 1 then s3 + 0.05 else s3)
    clamp (if |combinedScore| > 0.7 then s4 + 0.1 else s4)

/-- Confidence calibration written as a step pipeline with the clamps
the code actually applies: a ceiling after each bonus, a floor after the
word-count penalty, no clamp after the consistency multiplication, and
one final clamp to [0.1, 1.0]. -/
def steppedStanceConfidence (combinedScore : ℚ) (mentionCount : Nat)
    (text target : List Char) (consistency : ℚ) : ℚ :=
  if mentionCount = 0 then 0.1
  else
    let s1 := if mentionCount > 1 then min 1 (|combinedScore| + 0.1) else |combinedScore|
    let s2 := s1 * consistency
    let s3 := if wordCount text < 5 then max 0.1 (s2 - 0.2)
      else if wordCount text > 50 then min 1 (s2 + 0.1) else s2
    let s4 := if (pySplit target).length > 1 then min 1 (s3 + 0.05) else s3
    let s5 := if |combinedScore| > 0.7 then min 1 (s4 + 0.1) else s4
    max 0.1 (min 1 s5)

/-- The text the stance pipeline actually searches for the target: the
whitespace-normalized input, truncated to its first 5000 characters when
the trimmed input is over-long. -/
def stanceEffText (text : List Char) : List Char :=
  if 5000 < (pyStrip text).length then stance_preprocess_text (text.take 5000)
  else stance_preprocess_text text

/-- Case-insensitive word-boundary absence of the target: neither the
full target phrase nor (for a multi-word target) any of its sub-words of
length > 2 occurs in the text at word boundaries. -/
def targetAbsent (text target : List Char) : Prop :=
  boundaryMatches (pyLower text) (pyLower target) = [] ∧
  ((pySplit (pyLower target)).length > 1 →
    ∀ w ∈ pySplit (pyLower target), w.length > 2 →
      boundaryMatches (pyLower text) w = [])

instance (text target : List Char) : Decidable (targetAbsent text target) := by
  unfold targetAbsent; infer_instance

/-- The expected bad-input cases of the sentiment path: empty or
whitespace-only, too short, too long, or symbol-heavy text. -/
def badSentimentInput (text : List Char) : Prop :=
  pyStrip text = [] ∨ (pyStrip text).length < 3 ∨ 5000 < (pyStrip text).length ∨
    (0.7 : ℚ) < calculate_symbol_ratio text

/-- The expected bad-input cases of the stance path: empty or
whitespace-only text, empty target, too short or too long text, or a
target absent from the analyzed text. -/
def badStanceInput (text target : List Char) : Prop :=
  pyStrip text = [] ∨ pyStrip target = [] ∨ (pyStrip text).length < 3 ∨
    5000 < (pyStrip text).length ∨
    targetAbsent (stanceEffText text) (preprocess_target target)

/-- A warning is present and humanly non-empty. -/
def hasNonemptyWarning : Option String → Prop
  | none => False
  | some w => w ≠ ""

/-- Wellformedness of a sentiment result: confidence in [0.1, 1] and
one of the three labels. -/
def sentimentOk (r : SentimentResult) : Prop :=
  (0.1 ≤ r.confidence ∧ r.confidence ≤ 1) ∧
    (r.sentiment = "positive" ∨ r.sentiment = "negative" ∨ r.sentiment = "normal")

/-- Wellformedness of a stance result: confidence in [0.1, 1] and one of
the three labels. -/
def stanceOk (r : StanceResult) : Prop :=
  (0.1 ≤ r.confidence ∧ r.confidence ≤ 1) ∧
    (r.stance = "supportive" ∨ r.stance = "opposing" ∨ r.stance = "neutral")

/-! ### Helper lemmas -/

theorem clamp_sub_le_one {x c : ℚ} (hx : x ≤ 1) (hc : 0 ≤ c) :
    max 0.1 (x - c) ≤ 1 :=
  max_le (by norm_num) (by linarith)

theorem calculate_confidence_bounds (s : ScoreVector) (o p : List Char) :
    0.1 ≤ calculate_confidence s o p ∧ calculate_confidence s o p ≤ 1 := by
  unfold calculate_confidence
  exact ⟨le_max_left _ _, max_le (by norm_num) (min_le_left _ _)⟩

theorem stanceConfidenceTail_bounds (b c : ℚ) (text target : List Char) (cons : ℚ) :
    0.1 ≤ stanceConfidenceTail b c text target cons ∧
      stanceConfidenceTail b c text target cons ≤ 1 := by
  unfold stanceConfidenceTail
  exact ⟨le_max_left _ _, max_le (by norm_num) (min_le_left _ _)⟩

theorem stance_calculate_confidence_bounds (c : ℚ) (m : Nat)
    (text target : List Char) (cons : ℚ) :
    0.1 ≤ stance_calculate_confidence c m text target cons ∧
      stance_calculate_confidence c m text target cons ≤ 1 := by
  unfold stance_calculate_confidence
  split
  · exact stanceConfidenceTail_bounds _ _ _ _ _
  · split
    · exact ⟨le_refl _, by norm_num⟩
    · exact stanceConfidenceTail_bounds _ _ _ _ _

theorem classify_sentiment_cases (s : ScoreVector) :
    classify_sentiment s = "positive" ∨ classify_sentiment s = "negative" ∨
      classify_sentiment s = "normal" := by
  unfold classify_sentiment
  split
  · exact Or.inl rfl
  · split
    · exact Or.inr (Or.inl rfl)
    · exact Or.inr (Or.inr rfl)

theorem classify_stance_cases (c : ℚ) :
    classify_stance c = "supportive" ∨ classify_stance c = "opposing" ∨
      classify_stance c = "neutral" := by
  unfold classify_stance
  split
  · exact Or.inl rfl
  · split
    · exact Or.inr (Or.inl rfl)
    · exact Or.inr (Or.inr rfl)

theorem sentiment_check_text_length_ok {pol : List Char → ScoreVector}
    {t : List Char} {r : SentimentResult}
    (h : sentiment_check_text_length pol t = some r) : sentimentOk r := by
  unfold sentiment_check_text_length at h
  dsimp only at h
  split at h
  · cases h
    exact ⟨⟨le_refl _, by norm_num⟩, Or.inr (Or.inr rfl)⟩
  · split at h
    · cases h
      exact ⟨⟨le_max_left _ _,
        clamp_sub_le_one (calculate_confidence_bounds _ _ _).2 (by norm_num)⟩,
        classify_sentiment_cases _⟩
    · exact absurd h (by simp)

theorem handle_special_cases_ok {pol : List Char → ScoreVector}
    {o p : List Char} {r : SentimentResult}
    (h : handle_special_cases pol o p = some r) : sentimentOk r := by
  unfold handle_special_cases at h
  dsimp only at h
  split at h
  · split at h
    · cases h
      exact ⟨⟨le_refl _, by norm_num⟩, Or.inr (Or.inr rfl)⟩
    · cases h
      exact ⟨⟨le_max_left _ _,
        clamp_sub_le_one (calculate_confidence_bounds _ _ _).2 (by norm_num)⟩,
        classify_sentiment_cases _⟩
  · split at h
    · cases h
      exact ⟨⟨le_max_left _ _,
        clamp_sub_le_one (calculate_confidence_bounds _ _ _).2 (by norm_num)⟩,
        classify_sentiment_cases _⟩
    · exact absurd h (by simp)

theorem sentimentMain_ok (pol : List Char → ScoreVector) (t : List Char) :
    sentimentOk (sentimentMain pol t) := by
  unfold sentimentMain
  dsimp only
  rcases h : handle_special_cases pol t (preprocess_text t) with _ | r
  · exact ⟨calculate_confidence_bounds _ _ _, classify_sentiment_cases _⟩
  · exact handle_special_cases_ok h

theorem stance_check_text_length_ok {pol : List Char → ScoreVector}
    {t g : List Char} {r : StanceResult}
    (h : stance_check_text_length pol t g = some r) : stanceOk r := by
  unfold stance_check_text_length at h
  dsimp only at h
  split at h
  · cases h
    exact ⟨⟨le_refl _, by norm_num⟩, Or.inr (Or.inr rfl)⟩
  · split at h
    · split at h
      · cases h
        exact ⟨⟨le_refl _, by norm_num⟩, Or.inr (Or.inr rfl)⟩
      · cases h
        exact ⟨⟨le_max_left _ _,
          clamp_sub_le_one (stance_calculate_confidence_bounds _ _ _ _ _).2
            (by norm_num)⟩,
          classify_stance_cases _⟩
    · exact absurd h (by simp)

theorem stanceMain_ok (pol : List Char → ScoreVector) (t g : List Char) :
    stanceOk (stanceMain pol t g) := by
  unfold stanceMain
  dsimp only
  split
  · exact ⟨⟨le_refl _, by norm_num [targetNotFoundResult]⟩, Or.inr (Or.inr rfl)⟩
  · exact ⟨stance_calculate_confidence_bounds _ _ _ _ _, classify_stance_cases _⟩

theorem string_ne_of_head {s t : String} (h : s.data.head? ≠ t.data.head?) :
    s ≠ t := fun he => h (he ▸ rfl)

theorem string_ne_empty_of_head {s : String} {c : Char}
    (h : s.data.head? = some c) : s ≠ "" := by
  intro he
  rw [he] at h
  exact Option.noConfusion h

theorem tooShortWarning_head (n : Nat) :
    (tooShortWarning n).data.head? = some 'T' := by
  unfold tooShortWarning
  rw [String.data_append, String.data_append]
  rfl

theorem truncatedWarning_head (n : Nat) :
    (truncatedWarning n).data.head? = some 'T' := by
  unfold truncatedWarning
  rw [String.data_append, String.data_append]
  rfl

theorem tooManySymbolsWarning_head (q : ℚ) :
    (tooManySymbolsWarning q).data.head? = some 'T' := by
  unfold tooManySymbolsWarning
  rw [String.data_append, String.data_append]
  rfl

theorem highSymbolWarning_head (q : ℚ) :
    (highSymbolWarning q).data.head? = some 'H' := by
  unfold highSymbolWarning
  rw [String.data_append, String.data_append]
  rfl

theorem veryShortWarning_head (n : Nat) :
    (veryShortWarning n).data.head? = some 'V' := by
  unfold veryShortWarning
  rw [String.data_append, String.data_append]
  rfl

theorem targetNotFoundWarning_head (t : List Char) :
    (targetNotFoundWarning t).data.head? = some 'T' := by
  unfold targetNotFoundWarning
  rw [String.data_append, String.data_append]
  rfl

theorem truncatedNotFoundWarning_head (n : Nat) :
    (truncatedNotFoundWarning n).data.head? = some 'T' := by
  unfold truncatedNotFoundWarning
  rw [String.data_append, String.data_append]
  rfl

theorem pyBlank_false_of_strip_ne {t : List Char} (h : pyStrip t ≠ []) :
    pyBlank t = false := by
  unfold pyBlank
  have ht : t ≠ [] := by
    intro he
    exact h (by rw [he]; rfl)
  simp [List.isEmpty_iff, ht, h]

/-! ### Claim theorems -/

/-- C1: for every polarity primitive and every input, `classify_sentiment`
returns a confidence in [0.1, 1.0] and a label among positive / negative
/ normal, and `classify_stance` returns a confidence in [0.1, 1.0] and a
label among supportive / opposing / neutral. -/
theorem c1_confidence_and_label_bounds :
    (∀ (pol : List Char → ScoreVector) (text : List Char),
        sentimentOk (analyze_sentiment pol text)) ∧
      (∀ (pol : List Char → ScoreVector) (text target : List Char),
        stanceOk (analyze_stance pol text target)) := by
  constructor
  · intro pol text
    unfold analyze_sentiment
    split
    · exact ⟨⟨le_refl _, by norm_num [emptySentimentResult]⟩, Or.inr (Or.inr rfl)⟩
    · rcases h : sentiment_check_text_length pol text with _ | r
      · simp only [h]
        exact sentimentMain_ok pol text
      · simp only [h]
        exact sentiment_check_text_length_ok h
  · intro pol text target
    unfold analyze_stance
    split
    · exact ⟨⟨le_refl _, by norm_num [emptyTextStanceResult]⟩, Or.inr (Or.inr rfl)⟩
    · split
      · exact ⟨⟨le_refl _, by norm_num [emptyTargetStanceResult]⟩,
          Or.inr (Or.inr rfl)⟩
      · rcases h : stance_check_text_length pol text target with _ | r
        · simp only [h]
          exact stanceMain_ok pol text target
        · simp only [h]
          exact stance_check_text_length_ok h

/-- C2: the claim asserts that whenever the target, matched
case-insensitively at word boundaries, does not occur in the text, the
stance result has no mentions.  It fails for multi-word targets: with
text "tim cook is great" and target "tim apple" the full target occurs
nowhere, yet the sub-word scan matches "tim" and reports 1 mention. -/
theorem c2_counterexample :
    boundaryMatches (pyLower "tim cook is great".toList)
        (pyLower "tim apple".toList) = [] ∧
      (analyze_stance neutralPolarity "tim cook is great".toList
        "tim apple".toList).target_mentions = 1 := by
  constructor <;> decide

theorem addSubwordMatches_nil (n : Nat) (acc : List Nat) :
    addSubwordMatches n [] acc = acc := rfl

theorem subword_foldl_id (tl : List Char) (tgtLen : Nat) :
    ∀ (ws : List (List Char)) (acc : List Nat),
      (∀ w ∈ ws, w.length > 2 → boundaryMatches tl w = []) →
      ws.foldl
        (fun acc w =>
          if w.length > 2 then addSubwordMatches tgtLen (boundaryMatches tl w) acc
          else acc) acc = acc := by
  intro ws
  induction ws with
  | nil => intro acc _; rfl
  | cons w ws ih =>
    intro acc h
    rw [List.foldl_cons]
    by_cases hlen : w.length > 2
    · rw [if_pos hlen, h w (List.mem_cons_self _ _) hlen, addSubwordMatches_nil]
      exact ih acc fun w2 hw2 => h w2 (List.mem_cons_of_mem _ hw2)
    · rw [if_neg hlen]
      exact ih acc fun w2 hw2 => h w2 (List.mem_cons_of_mem _ hw2)

theorem find_target_mentions_eq_nil {text target : List Char}
    (h : targetAbsent text target) :
    find_target_mentions text target = [] := by
  unfold find_target_mentions
  split
  · rfl
  · dsimp only
    rw [h.1]
    split
    · rename_i hlen
      rw [subword_foldl_id (pyLower text) (pyLower target).length _ _
        (h.2 hlen)]
      rfl
    · rfl

theorem stance_check_none_not_long {pol : List Char → ScoreVector}
    {t g : List Char} (h : stance_check_text_length pol t g = none) :
    ¬ 5000 < (pyStrip t).length := by
  unfold stance_check_text_length at h
  dsimp only at h
  split at h
  · exact absurd h (by simp)
  · split at h
    · split at h <;> exact absurd h (by simp)
    · assumption

theorem stance_check_some_notfound_fields {pol : List Char → ScoreVector}
    {t g : List Char} {r : StanceResult}
    (h : stance_check_text_length pol t g = some r)
    (habs : targetAbsent (stanceEffText t) (preprocess_target g)) :
    r.target_mentions = 0 ∧ r.stance = "neutral" ∧ r.confidence = 0.1 := by
  unfold stance_check_text_length at h
  dsimp only at h
  split at h
  · cases h
    exact ⟨rfl, rfl, rfl⟩
  · split at h
    · rename_i hlen5
      have heff : stanceEffText t = stance_preprocess_text (t.take 5000) := by
        unfold stanceEffText
        rw [if_pos hlen5]
      rw [heff] at habs
      have hm := find_target_mentions_eq_nil habs
      split at h
      · cases h
        exact ⟨rfl, rfl, rfl⟩
      · exact absurd hm (by assumption)
    · exact absurd h (by simp)

/-- C2 (amended): whenever neither the target phrase nor, for a
multi-word target, any of its sub-words of length > 2 occurs — matched
case-insensitively at word boundaries — in the analyzed text (the
whitespace-normalized input, truncated to 5000 characters when
over-long), `classify_stance` reports mention_count 0, label neutral and
confidence 0.1. -/
theorem c2_target_not_found (pol : List Char → ScoreVector)
    (text target : List Char)
    (h : targetAbsent (stanceEffText text) (preprocess_target target)) :
    (analyze_stance pol text target).target_mentions = 0 ∧
      (analyze_stance pol text target).stance = "neutral" ∧
      (analyze_stance pol text target).confidence = 0.1 := by
  unfold analyze_stance
  by_cases h1 : pyBlank text
  · rw [if_pos h1]
    exact ⟨rfl, rfl, rfl⟩
  · rw [if_neg h1]
    by_cases h2 : pyBlank target
    · rw [if_pos h2]
      exact ⟨rfl, rfl, rfl⟩
    · rw [if_neg h2]
      rcases hck : stance_check_text_length pol text target with _ | r
      · have hnl := stance_check_none_not_long hck
        have heff : stanceEffText text = stance_preprocess_text text := by
          unfold stanceEffText
          rw [if_neg hnl]
        rw [heff] at h
        have hm := find_target_mentions_eq_nil h
        unfold stanceMain
        dsimp only
        rw [hm]
        exact ⟨rfl, rfl, rfl⟩
      · exact stance_check_some_notfound_fields hck h

/-- Witness for C2 (amended) at text "hello world", target "zebra". -/
theorem c2_target_not_found_witness :
    targetAbsent (stanceEffText "hello world".toList)
        (preprocess_target "zebra".toList) ∧
      (analyze_stance neutralPolarity "hello world".toList
          "zebra".toList).target_mentions = 0 ∧
      (analyze_stance neutralPolarity "hello world".toList
          "zebra".toList).stance = "neutral" ∧
      (analyze_stance neutralPolarity "hello world".toList
          "zebra".toList).confidence = 0.1 :=
  ⟨by decide, c2_target_not_found neutralPolarity _ _ (by decide)⟩

theorem symbol_ratio_eval {t : List Char} (a b n : Nat)
    (ha : (List.filter (fun c => (decide (¬ isWordChar c = true)) &&
      (decide (¬ pyIsSpace c = true))) t).length = a)
    (hb : (List.filter isDigitChar t).length = b)
    (hn : t.length = n) (hne : t ≠ []) :
    calculate_symbol_ratio t = ((a + b : Nat) : ℚ) / (n : ℚ) := by
  unfold calculate_symbol_ratio
  rw [if_neg hne]
  dsimp only
  rw [ha, hb, hn]

/-- C3: the claim asserts the symbol-heavy gate acts on both the
sentiment and the stance path.  The stance path has no symbol-ratio
check at all: on the symbol-heavy text `"$$$$$$$$$$$$$$$$ abc"` (ratio
0.8) with target "abc", `classify_stance` neither falls back nor strips
anything — it analyzes normally, with `fallback_used = false` and no
warning. -/
theorem c3_counterexample :
    (0.7 : ℚ) < calculate_symbol_ratio "$$$$$$$$$$$$$$$$ abc".toList ∧
      (analyze_stance neutralPolarity "$$$$$$$$$$$$$$$$ abc".toList
          "abc".toList).fallback_used = false ∧
      (analyze_stance neutralPolarity "$$$$$$$$$$$$$$$$ abc".toList
          "abc".toList).warning = none := by
  refine ⟨?_, by decide, by decide⟩
  rw [symbol_ratio_eval 16 0 20 (by decide) (by decide) (by decide) (by decide)]
  norm_num

/-- C3 (amended): on the sentiment path, an input that passes the length
checks and whose symbol ratio — (non-word characters plus digits)
divided by the length, as the code computes it — exceeds 0.7 is handled
by stripping the characters outside `\w`, whitespace and `.,!?;:'"()-`
(replacing them with blanks): if the cleaned text has fewer than 2 words
the result is the fallback (normal, confidence 0.1, fallback_used),
otherwise the cleaned text is analyzed with its confidence reduced by
0.3 and floored at 0.1.  The stance path performs no such check. -/
theorem c3_symbol_heavy_gate (pol : List Char → ScoreVector) (t : List Char)
    (h3 : ¬ (pyStrip t).length < 3) (h5 : ¬ 5000 < (pyStrip t).length)
    (hr : 0.7 < calculate_symbol_ratio t) :
    if (pySplit (meaningfulText t)).length < 2 then
      analyze_sentiment pol t = ⟨"normal", 0.1, neutralScores, true,
        some (tooManySymbolsWarning (calculate_symbol_ratio t))⟩
    else
      (analyze_sentiment pol t).sentiment =
          classify_sentiment (pol (meaningfulText t)) ∧
        (analyze_sentiment pol t).confidence =
          max 0.1 (calculate_confidence (pol (meaningfulText t))
            (meaningfulText t) (meaningfulText t) - 0.3) ∧
        (analyze_sentiment pol t).fallback_used = true ∧
        (analyze_sentiment pol t).warning =
          some (highSymbolWarning (calculate_symbol_ratio t)) := by
  have hne : pyStrip t ≠ [] := by
    intro he
    rw [he] at h3
    exact h3 (by norm_num)
  have hb : pyBlank t = false := pyBlank_false_of_strip_ne hne
  have hck : sentiment_check_text_length pol t = none := by
    unfold sentiment_check_text_length
    dsimp only
    rw [if_neg h3, if_neg h5]
  have hmain : analyze_sentiment pol t = sentimentMain pol t := by
    unfold analyze_sentiment
    rw [if_neg (by simp [hb]), hck]
  rw [hmain]
  unfold sentimentMain
  dsimp only
  unfold handle_special_cases
  dsimp only
  rw [if_pos hr]
  by_cases hw : (pySplit (meaningfulText t)).length < 2
  · rw [if_pos hw, if_pos hw]
  · rw [if_neg hw, if_neg hw]
    exact ⟨rfl, rfl, rfl, rfl⟩

/-- Witness for C3 (amended) at the symbol-heavy sentiment input
`"@@@@@@@@@@@@@@@@@@@@@@@@ hi yo"` (ratio 0.8, cleaned text "hi yo"). -/
theorem c3_symbol_heavy_gate_witness :
    (¬ (pyStrip "@@@@@@@@@@@@@@@@@@@@@@@@ hi yo".toList).length < 3) ∧
      (¬ 5000 < (pyStrip "@@@@@@@@@@@@@@@@@@@@@@@@ hi yo".toList).length) ∧
      (0.7 : ℚ) <
        calculate_symbol_ratio "@@@@@@@@@@@@@@@@@@@@@@@@ hi yo".toList ∧
      (if (pySplit (meaningfulText "@@@@@@@@@@@@@@@@@@@@@@@@ hi yo".toList)).length < 2 then
        analyze_sentiment neutralPolarity "@@@@@@@@@@@@@@@@@@@@@@@@ hi yo".toList =
          ⟨"normal", 0.1, neutralScores, true,
            some (tooManySymbolsWarning
              (calculate_symbol_ratio "@@@@@@@@@@@@@@@@@@@@@@@@ hi yo".toList))⟩
      else
        (analyze_sentiment neutralPolarity
              "@@@@@@@@@@@@@@@@@@@@@@@@ hi yo".toList).sentiment =
            classify_sentiment (neutralPolarity
              (meaningfulText "@@@@@@@@@@@@@@@@@@@@@@@@ hi yo".toList)) ∧
          (analyze_sentiment neutralPolarity
              "@@@@@@@@@@@@@@@@@@@@@@@@ hi yo".toList).confidence =
            max 0.1 (calculate_confidence
              (neutralPolarity (meaningfulText "@@@@@@@@@@@@@@@@@@@@@@@@ hi yo".toList))
              (meaningfulText "@@@@@@@@@@@@@@@@@@@@@@@@ hi yo".toList)
              (meaningfulText "@@@@@@@@@@@@@@@@@@@@@@@@ hi yo".toList) - 0.3) ∧
          (analyze_sentiment neutralPolarity
              "@@@@@@@@@@@@@@@@@@@@@@@@ hi yo".toList).fallback_used = true ∧
          (analyze_sentiment neutralPolarity
              "@@@@@@@@@@@@@@@@@@@@@@@@ hi yo".toList).warning =
            some (highSymbolWarning
              (calculate_symbol_ratio "@@@@@@@@@@@@@@@@@@@@@@@@ hi yo".toList))) := by
  have hr : (0.7 : ℚ) <
      calculate_symbol_ratio "@@@@@@@@@@@@@@@@@@@@@@@@ hi yo".toList := by
    rw [symbol_ratio_eval 24 0 30 (by decide) (by decide) (by decide) (by decide)]
    norm_num
  exact ⟨by decide, by decide, hr,
    c3_symbol_heavy_gate neutralPolarity _ (by decide) (by decide) hr⟩

theorem sentiment_analyze_of_blank {pol : List Char → ScoreVector}
    {t : List Char} (h : pyStrip t = []) :
    analyze_sentiment pol t = emptySentimentResult := by
  unfold analyze_sentiment
  rw [if_pos (by simp [pyBlank, h])]

theorem sentiment_analyze_of_check {pol : List Char → ScoreVector}
    {t : List Char} {r : SentimentResult} (hne : pyStrip t ≠ [])
    (hck : sentiment_check_text_length pol t = some r) :
    analyze_sentiment pol t = r := by
  unfold analyze_sentiment
  rw [if_neg (by simp [pyBlank_false_of_strip_ne hne]), hck]

theorem sentiment_analyze_of_main {pol : List Char → ScoreVector}
    {t : List Char} (hne : pyStrip t ≠ [])
    (hck : sentiment_check_text_length pol t = none) :
    analyze_sentiment pol t = sentimentMain pol t := by
  unfold analyze_sentiment
  rw [if_neg (by simp [pyBlank_false_of_strip_ne hne]), hck]

theorem sentiment_check_short {pol : List Char → ScoreVector} {t : List Char}
    (h : (pyStrip t).length < 3) :
    sentiment_check_text_length pol t = some ⟨"normal", 0.1, neutralScores, true,
      some (tooShortWarning (pyStrip t).length)⟩ := by
  unfold sentiment_check_text_length
  dsimp only
  rw [if_pos h]

theorem sentiment_check_fallback {pol : List Char → ScoreVector}
    {t : List Char} {r : SentimentResult}
    (h : sentiment_check_text_length pol t = some r) :
    r.fallback_used = true ∧ hasNonemptyWarning r.warning := by
  unfold sentiment_check_text_length at h
  dsimp only at h
  split at h
  · cases h
    exact ⟨rfl, string_ne_empty_of_head (tooShortWarning_head _)⟩
  · split at h
    · cases h
      exact ⟨rfl, string_ne_empty_of_head (truncatedWarning_head _)⟩
    · exact absurd h (by simp)

theorem sentiment_check_isSome_of_long {pol : List Char → ScoreVector}
    {t : List Char} (h : 5000 < (pyStrip t).length) :
    (sentiment_check_text_length pol t).isSome = true := by
  unfold sentiment_check_text_length
  dsimp only
  rw [if_neg (by omega), if_pos h]
  rfl

theorem handle_special_fallback {pol : List Char → ScoreVector}
    {o p : List Char} {r : SentimentResult}
    (h : handle_special_cases pol o p = some r) :
    r.fallback_used = true ∧ hasNonemptyWarning r.warning := by
  unfold handle_special_cases at h
  dsimp only at h
  split at h
  · split at h
    · cases h
      exact ⟨rfl, string_ne_empty_of_head (tooManySymbolsWarning_head _)⟩
    · cases h
      exact ⟨rfl, string_ne_empty_of_head (highSymbolWarning_head _)⟩
  · split at h
    · cases h
      exact ⟨rfl, string_ne_empty_of_head (veryShortWarning_head _)⟩
    · exact absurd h (by simp)

theorem handle_special_isSome_of_ratio {pol : List Char → ScoreVector}
    {o p : List Char} (h : 0.7 < calculate_symbol_ratio o) :
    (handle_special_cases pol o p).isSome = true := by
  unfold handle_special_cases
  dsimp only
  rw [if_pos h]
  split <;> rfl

theorem stance_analyze_of_blank_text {pol : List Char → ScoreVector}
    {t g : List Char} (h : pyStrip t = []) :
    analyze_stance pol t g = emptyTextStanceResult g := by
  unfold analyze_stance
  rw [if_pos (by simp [pyBlank, h])]

theorem stance_analyze_of_blank_target {pol : List Char → ScoreVector}
    {t g : List Char} (hne : pyStrip t ≠ []) (h : pyStrip g = []) :
    analyze_stance pol t g = emptyTargetStanceResult g := by
  unfold analyze_stance
  rw [if_neg (by simp [pyBlank_false_of_strip_ne hne]),
    if_pos (by simp [pyBlank, h])]

theorem stance_analyze_of_check {pol : List Char → ScoreVector}
    {t g : List Char} {r : StanceResult} (hnt : pyStrip t ≠ [])
    (hng : pyStrip g ≠ []) (hck : stance_check_text_length pol t g = some r) :
    analyze_stance pol t g = r := by
  unfold analyze_stance
  rw [if_neg (by simp [pyBlank_false_of_strip_ne hnt]),
    if_neg (by simp [pyBlank_false_of_strip_ne hng]), hck]

theorem stance_analyze_of_main {pol : List Char → ScoreVector}
    {t g : List Char} (hnt : pyStrip t ≠ []) (hng : pyStrip g ≠ [])
    (hck : stance_check_text_length pol t g = none) :
    analyze_stance pol t g = stanceMain pol t g := by
  unfold analyze_stance
  rw [if_neg (by simp [pyBlank_false_of_strip_ne hnt]),
    if_neg (by simp [pyBlank_false_of_strip_ne hng]), hck]

theorem stance_check_short {pol : List Char → ScoreVector} {t g : List Char}
    (h : (pyStrip t).length < 3) :
    stance_check_text_length pol t g = some ⟨"neutral", 0.1, g, 0, 0, 0, 0, 1,
      true, some (tooShortWarning (pyStrip t).length)⟩ := by
  unfold stance_check_text_length
  dsimp only
  rw [if_pos h]

theorem stance_check_fallback {pol : List Char → ScoreVector}
    {t g : List Char} {r : StanceResult}
    (h : stance_check_text_length pol t g = some r) :
    r.fallback_used = true ∧ hasNonemptyWarning r.warning := by
  unfold stance_check_text_length at h
  dsimp only at h
  split at h
  · cases h
    exact ⟨rfl, string_ne_empty_of_head (tooShortWarning_head _)⟩
  · split at h
    · split at h
      · cases h
        exact ⟨rfl, string_ne_empty_of_head (truncatedNotFoundWarning_head _)⟩
      · cases h
        exact ⟨rfl, string_ne_empty_of_head (truncatedWarning_head _)⟩
    · exact absurd h (by simp)

theorem stance_check_isSome_of_long {pol : List Char → ScoreVector}
    {t g : List Char} (h : 5000 < (pyStrip t).length) :
    (stance_check_text_length pol t g).isSome = true := by
  unfold stance_check_text_length
  dsimp only
  rw [if_neg (by omega), if_pos h]
  split <;> rfl

/-- C4: the claim lists symbol-heavy text among the bad-input cases that
produce `fallback_used = true` on both classifiers.  The stance path
never checks the symbol ratio: `classify_stance("%%%%%%%%%%%%%%%% abc",
"abc")` — ratio 0.8 — completes a normal analysis with
`fallback_used = false`. -/
theorem c4_counterexample :
    (0.7 : ℚ) < calculate_symbol_ratio "%%%%%%%%%%%%%%%% abc".toList ∧
      (analyze_stance neutralPolarity "%%%%%%%%%%%%%%%% abc".toList
          "abc".toList).fallback_used = false := by
  refine ⟨?_, by decide⟩
  rw [symbol_ratio_eval 16 0 20 (by decide) (by decide) (by decide) (by decide)]
  norm_num

/-- C4 (amended): both classifiers are total, and every expected
bad-input case — empty or whitespace-only text, too-short text, too-long
text, symbol-heavy text (sentiment path only), empty target and absent
target (stance path) — yields a result with `fallback_used = true` and a
non-empty warning. -/
theorem c4_bad_inputs_degrade :
    (∀ (pol : List Char → ScoreVector) (t : List Char), badSentimentInput t →
        (analyze_sentiment pol t).fallback_used = true ∧
          hasNonemptyWarning (analyze_sentiment pol t).warning) ∧
      (∀ (pol : List Char → ScoreVector) (t g : List Char), badStanceInput t g →
        (analyze_stance pol t g).fallback_used = true ∧
          hasNonemptyWarning (analyze_stance pol t g).warning) := by
  constructor
  · intro pol t hbad
    by_cases hempty : pyStrip t = []
    · rw [sentiment_analyze_of_blank hempty]
      exact ⟨rfl, string_ne_empty_of_head
        (show emptyTextWarning.data.head? = some 'E' from rfl)⟩
    · by_cases hshort : (pyStrip t).length < 3
      · rw [sentiment_analyze_of_check hempty (sentiment_check_short hshort)]
        exact ⟨rfl, string_ne_empty_of_head (tooShortWarning_head _)⟩
      · by_cases hlong : 5000 < (pyStrip t).length
        · rcases Option.isSome_iff_exists.mp
            (@sentiment_check_isSome_of_long pol t hlong) with ⟨r, hck⟩
          rw [sentiment_analyze_of_check hempty hck]
          exact sentiment_check_fallback hck
        · have hratio : 0.7 < calculate_symbol_ratio t := by
            rcases hbad with h | h | h | h
            · exact absurd h hempty
            · exact absurd h hshort
            · exact absurd h hlong
            · exact h
          have hck : sentiment_check_text_length pol t = none := by
            unfold sentiment_check_text_length
            dsimp only
            rw [if_neg hshort, if_neg hlong]
          rw [sentiment_analyze_of_main hempty hck]
          unfold sentimentMain
          dsimp only
          rcases Option.isSome_iff_exists.mp
            (@handle_special_isSome_of_ratio pol t (preprocess_text t) hratio)
            with ⟨r, hsp⟩
          rw [hsp]
          exact handle_special_fallback hsp
  · intro pol t g hbad
    by_cases hempty : pyStrip t = []
    · rw [stance_analyze_of_blank_text hempty]
      exact ⟨rfl, string_ne_empty_of_head
        (show emptyTextWarning.data.head? = some 'E' from rfl)⟩
    · by_cases hemptyg : pyStrip g = []
      · rw [stance_analyze_of_blank_target hempty hemptyg]
        exact ⟨rfl, string_ne_empty_of_head
          (show emptyTargetWarning.data.head? = some 'E' from rfl)⟩
      · by_cases hshort : (pyStrip t).length < 3
        · rw [stance_analyze_of_check hempty hemptyg (stance_check_short hshort)]
          exact ⟨rfl, string_ne_empty_of_head (tooShortWarning_head _)⟩
        · by_cases hlong : 5000 < (pyStrip t).length
          · rcases Option.isSome_iff_exists.mp
              (@stance_check_isSome_of_long pol t g hlong) with ⟨r, hck⟩
            rw [stance_analyze_of_check hempty hemptyg hck]
            exact stance_check_fallback hck
          · have habs : targetAbsent (stanceEffText t) (preprocess_target g) := by
              rcases hbad with h | h | h | h | h
              · exact absurd h hempty
              · exact absurd h hemptyg
              · exact absurd h hshort
              · exact absurd h hlong
              · exact h
            have hck : stance_check_text_length pol t g = none := by
              unfold stance_check_text_length
              dsimp only
              rw [if_neg hshort, if_neg hlong]
            rw [stance_analyze_of_main hempty hemptyg hck]
            unfold stanceMain
            dsimp only
            have heff : stanceEffText t = stance_preprocess_text t := by
              unfold stanceEffText
              rw [if_neg hlong]
            rw [heff] at habs
            rw [find_target_mentions_eq_nil habs]
            exact ⟨rfl, string_ne_empty_of_head (targetNotFoundWarning_head _)⟩

/-- Witness for C4 (amended): the empty sentiment input and the
too-short stance input. -/
theorem c4_bad_inputs_degrade_witness :
    badSentimentInput [] ∧ badStanceInput "hi".toList "zebra".toList ∧
      ((analyze_sentiment neutralPolarity []).fallback_used = true ∧
        hasNonemptyWarning (analyze_sentiment neutralPolarity []).warning) ∧
      ((analyze_stance neutralPolarity "hi".toList "zebra".toList).fallback_used
          = true ∧
        hasNonemptyWarning
          (analyze_stance neutralPolarity "hi".toList "zebra".toList).warning) :=
  ⟨Or.inl (by decide), Or.inr (Or.inr (Or.inl (by decide))),
    c4_bad_inputs_degrade.1 neutralPolarity [] (Or.inl (by decide)),
    c4_bad_inputs_degrade.2 neutralPolarity _ _
      (Or.inr (Or.inr (Or.inl (by decide))))⟩

theorem dropWhile_replicate_false {p : Char → Bool} {c : Char} (h : p c = false)
    (n : Nat) : List.dropWhile p (List.replicate n c) = List.replicate n c := by
  cases n with
  | zero => rfl
  | succ m =>
    rw [List.replicate_succ, List.dropWhile_cons, h]
    simp

theorem pyStrip_replicate_nonspace {c : Char} (h : pyIsSpace c = false)
    (n : Nat) : pyStrip (List.replicate n c) = List.replicate n c := by
  unfold pyStrip
  rw [dropWhile_replicate_false h, List.reverse_replicate,
    dropWhile_replicate_false h, List.reverse_replicate]

theorem squeezeWS_replicate_nonspace {c : Char} (h : pyIsSpace c = false) :
    ∀ n, squeezeWS (List.replicate n c) = List.replicate n c := by
  intro n
  induction n with
  | zero => rfl
  | succ m ih =>
    cases m with
    | zero => simp [squeezeWS, h]
    | succ k =>
      rw [List.replicate_succ]
      rw [show List.replicate (k + 1) c = c :: List.replicate k c from
        List.replicate_succ c k]
      show squeezeWS (c :: c :: List.replicate k c) = _
      unfold squeezeWS
      rw [h]
      rw [show squeezeWS (c :: List.replicate k c) =
        squeezeWS (List.replicate (k + 1) c) from by rw [List.replicate_succ]]
      rw [ih, ← List.replicate_succ, ← List.replicate_succ]
      rw [if_neg (show ¬ (false = true) by simp), List.replicate_succ]

theorem collapseRepeatsAux_replicate_sat (c : Char) :
    ∀ m, collapseRepeatsAux (List.replicate m c) c 3 = [] := by
  intro m
  induction m with
  | zero => rfl
  | succ k ih =>
    rw [List.replicate_succ]
    unfold collapseRepeatsAux
    rw [if_pos rfl, if_pos (by norm_num)]
    exact ih

theorem collapseRepeats_replicate_big {c : Char} {n : Nat} (h : 3 ≤ n) :
    collapseRepeats (List.replicate n c) = [c, c, c] := by
  obtain ⟨k, rfl⟩ : ∃ k, n = k + 3 := ⟨n - 3, by omega⟩
  rw [show k + 3 = (k + 2) + 1 from rfl, List.replicate_succ]
  show c :: collapseRepeatsAux (List.replicate (k + 2) c) c 1 = _
  rw [show k + 2 = (k + 1) + 1 from rfl, List.replicate_succ]
  unfold collapseRepeatsAux
  rw [if_pos rfl, if_neg (by norm_num)]
  rw [List.replicate_succ]
  unfold collapseRepeatsAux
  rw [if_pos rfl, if_neg (by norm_num)]
  rw [show (1 : Nat) + 1 + 1 = 3 from rfl]
  rw [collapseRepeatsAux_replicate_sat]

theorem preprocess_replicate_A :
    preprocess_text (List.replicate 5000 'A') = ['A', 'A', 'A'] := by
  have hA : pyIsSpace 'A' = false := by decide
  have hne : pyStrip (List.replicate 5000 'A') ≠ [] := by
    rw [pyStrip_replicate_nonspace hA]
    intro he
    have hl := congrArg List.length he
    rw [List.length_replicate, List.length_nil] at hl
    exact absurd hl (by norm_num)
  have hp : pyBlank (List.replicate 5000 'A') = false := pyBlank_false_of_strip_ne hne
  unfold preprocess_text
  rw [if_neg (by rw [hp]; exact Bool.false_ne_true)]
  rw [pyStrip_replicate_nonspace hA, squeezeWS_replicate_nonspace hA,
    collapseRepeats_replicate_big (by norm_num)]

theorem analyze_sentiment_6000A (pol : List Char → ScoreVector) :
    analyze_sentiment pol (List.replicate 6000 'A') =
      ⟨classify_sentiment (pol ['A', 'A', 'A']),
        max 0.1 (calculate_confidence (pol ['A', 'A', 'A'])
          (List.replicate 5000 'A') ['A', 'A', 'A'] - 0.2),
        pol ['A', 'A', 'A'], true, some (truncatedWarning 6000)⟩ := by
  have hA : pyIsSpace 'A' = false := by decide
  have hstrip : pyStrip (List.replicate 6000 'A') = List.replicate 6000 'A' :=
    pyStrip_replicate_nonspace hA 6000
  have hne : pyStrip (List.replicate 6000 'A') ≠ [] := by
    rw [hstrip]
    intro he
    have hl := congrArg List.length he
    rw [List.length_replicate, List.length_nil] at hl
    exact absurd hl (by norm_num)
  have htake : (List.replicate 6000 'A').take 5000 = List.replicate 5000 'A' := by
    rw [List.take_replicate]
    norm_num
  have hck : sentiment_check_text_length pol (List.replicate 6000 'A') =
      some ⟨classify_sentiment (pol ['A', 'A', 'A']),
        max 0.1 (calculate_confidence (pol ['A', 'A', 'A'])
          (List.replicate 5000 'A') ['A', 'A', 'A'] - 0.2),
        pol ['A', 'A', 'A'], true, some (truncatedWarning 6000)⟩ := by
    unfold sentiment_check_text_length
    dsimp only
    rw [hstrip, List.length_replicate, if_neg (by norm_num),
      if_pos (by norm_num), htake, preprocess_replicate_A]
  rw [sentiment_analyze_of_check hne hck]

/-- C8: the claim asserts that the confidence on the 6000-'A' input is
at most the confidence computed on the first 5000 characters minus the
0.2 full-length penalty.  With the polarity primitive returning the
neutral score vector on "AAA" (as VADER does: no lexicon word), both the
final confidence and the confidence computed on the truncated text are
0.1, and 0.1 is not at most 0.1 - 0.2: the claimed inequality fails
whenever the 0.1 floor engages. -/
theorem c8_counterexample :
    ¬ ((analyze_sentiment neutralPolarity (List.replicate 6000 'A')).confidence ≤
      calculate_confidence (neutralPolarity ['A', 'A', 'A'])
        (List.replicate 5000 'A') ['A', 'A', 'A'] - 0.2) := by
  rw [analyze_sentiment_6000A neutralPolarity]
  have hcalc : calculate_confidence (neutralPolarity ['A', 'A', 'A'])
      (List.replicate 5000 'A') ['A', 'A', 'A'] = 0.1 := by
    show calculate_confidence neutralScores _ _ = 0.1
    unfold calculate_confidence neutralScores
    rw [show wordCount ['A', 'A', 'A'] = 1 from by decide]
    norm_num [min_def, max_def, abs_of_nonneg]
  rw [hcalc]
  norm_num [max_def]

/-- C8 (amended): `classify_sentiment` on 6000 'A' characters reports
`fallback_used = true` with a warning containing "truncated", and its
confidence equals the confidence computed on the first 5000 characters
minus 0.2, floored at 0.1 — hence it is at most that unpenalized
confidence (but not necessarily at most the confidence minus 0.2, since
the floor can engage). -/
theorem c8_truncation (pol : List Char → ScoreVector) :
    (analyze_sentiment pol (List.replicate 6000 'A')).fallback_used = true ∧
      (analyze_sentiment pol (List.replicate 6000 'A')).warning =
        some (truncatedWarning 6000) ∧
      containsSub (truncatedWarning 6000) "truncated" = true ∧
      (analyze_sentiment pol (List.replicate 6000 'A')).confidence =
        max 0.1 (calculate_confidence (pol ['A', 'A', 'A'])
          (List.replicate 5000 'A') ['A', 'A', 'A'] - 0.2) ∧
      (analyze_sentiment pol (List.replicate 6000 'A')).confidence ≤
        calculate_confidence (pol ['A', 'A', 'A'])
          (List.replicate 5000 'A') ['A', 'A', 'A'] := by
  rw [analyze_sentiment_6000A pol]
  refine ⟨rfl, rfl, by decide, rfl, ?_⟩
  refine max_le (calculate_confidence_bounds _ _ _).1 ?_
  linarith [sub_le_self (calculate_confidence (pol ['A', 'A', 'A'])
    (List.replicate 5000 'A') ['A', 'A', 'A']) (by norm_num : (0:ℚ) ≤ 0.2)]


/-- C5: the claim asserts that the running confidence value is clamped
to [0.1, 1.0] after every calibration step.  It is not: with
combined_score 0, two mentions, consistency 0 and a 51-word text, the
clamp-after-every-step procedure yields 0.2 while the code yields 0.1
(no floor is applied after the consistency multiplication). -/
theorem c5_counterexample :
    stance_calculate_confidence 0 2
        (List.replicate 51 ['w', ' ']).flatten ['t'] 0 ≠
      claimStanceConfidence 0 2
        (List.replicate 51 ['w', ' ']).flatten ['t'] 0 := by
  have hw : wordCount (List.replicate 51 ['w', ' ']).flatten = 51 := by decide
  have ht : (pySplit ['t']).length = 1 := by decide
  unfold stance_calculate_confidence stanceConfidenceTail claimStanceConfidence
  rw [hw, ht]
  norm_num [min_def, max_def]

/-- C5 (amended): the stance confidence calibration applies the
adjustments in the claimed order — mention bonus, consistency
multiplication, word-count adjustment, target-specificity bonus,
clear-stance bonus — but clamps only as the code does: a 1.0 ceiling
after each bonus, a 0.1 floor after the word-count penalty, no clamp at
all after the consistency multiplication, and one final clamp of the
result to [0.1, 1.0]. -/
theorem c5_confidence_step_order (c : ℚ) (m : Nat) (text target : List Char)
    (cons : ℚ) :
    stance_calculate_confidence c m text target cons =
      steppedStanceConfidence c m text target cons := by
  rcases m with _ | _ | k
  · simp [stance_calculate_confidence, steppedStanceConfidence]
  · simp [stance_calculate_confidence, steppedStanceConfidence, stanceConfidenceTail]
  · have h1 : k + 2 > 1 := by omega
    have h0 : k + 2 ≠ 0 := by omega
    simp [stance_calculate_confidence, steppedStanceConfidence,
      stanceConfidenceTail, h1, h0]

/-- C6: the claim asserts the empty-target check comes last, after the
length checks, so that a short text with an empty target yields the
"text too short" fallback.  The code checks the target immediately
after the empty-text check: `analyze_stance("ab", "")` yields the
empty-target warning, not the too-short warning. -/
theorem c6_counterexample :
    (analyze_stance neutralPolarity ['a', 'b'] []).warning =
        some emptyTargetWarning ∧
      (analyze_stance neutralPolarity ['a', 'b'] []).warning ≠
        some (tooShortWarning 2) := by
  constructor
  · decide
  · intro h
    have : emptyTargetWarning = tooShortWarning 2 := by
      have h2 : (analyze_stance neutralPolarity ['a', 'b'] []).warning =
          some emptyTargetWarning := by decide
      rw [h2] at h
      exact Option.some.inj h
    exact string_ne_of_head (by rw [tooShortWarning_head]; decide) this.symm

/-- C6 (amended): the robustness checks run in the order: empty text,
then (stance only) empty target, then too-short, too-long; the first
match wins.  In particular a stance call with a non-empty text shorter
than 3 trimmed characters and an empty target produces the empty-target
fallback, not the text-too-short fallback. -/
theorem c6_ladder_order (pol : List Char → ScoreVector) (text target : List Char)
    (h1 : pyStrip text ≠ []) (h2 : (pyStrip text).length < 3)
    (h3 : pyStrip target = []) :
    analyze_stance pol text target = emptyTargetStanceResult target ∧
      (analyze_stance pol text target).warning ≠
        some (tooShortWarning (pyStrip text).length) := by
  have hb : pyBlank text = false := pyBlank_false_of_strip_ne h1
  have hbt : pyBlank target = true := by
    unfold pyBlank
    simp [h3]
  have hres : analyze_stance pol text target = emptyTargetStanceResult target := by
    unfold analyze_stance
    rw [hb, hbt]
    rfl
  refine ⟨hres, ?_⟩
  rw [hres]
  show some emptyTargetWarning ≠ _
  intro h
  exact string_ne_of_head
    (by rw [tooShortWarning_head]; decide) (Option.some.inj h).symm

/-- Witness for C6 (amended) at text "ab" (2 trimmed characters) with an
empty target. -/
theorem c6_ladder_order_witness :
    pyStrip ['a', 'b'] ≠ [] ∧ (pyStrip ['a', 'b']).length < 3 ∧
      pyStrip ([] : List Char) = [] ∧
      (analyze_stance neutralPolarity ['a', 'b'] [] =
          emptyTargetStanceResult [] ∧
        (analyze_stance neutralPolarity ['a', 'b'] []).warning ≠
          some (tooShortWarning (pyStrip ['a', 'b']).length)) :=
  ⟨by decide, by decide, rfl,
    c6_ladder_order neutralPolarity ['a', 'b'] [] (by decide) (by decide) rfl⟩

set_option maxHeartbeats 3200000 in
/-- C7: in the stance request with text "I don't love Apple" and target
"Apple", the keyword score of the (unique) mention is negative: the
negation scan over the words before the positive indicator "love" finds
"don't" and negates its contribution. -/
theorem c7_negation_flips_sign :
    analyze_keyword_based_stance
        (stance_preprocess_text "I don't love Apple".toList)
        (find_target_mentions (stance_preprocess_text "I don't love Apple".toList)
          (preprocess_target "Apple".toList)) < 0 := by
  have hpre : stance_preprocess_text "I don't love Apple".toList =
      "I don't love Apple".toList := by decide
  have hpos : find_target_mentions "I don't love Apple".toList
      (preprocess_target "Apple".toList) = [13] := by decide
  rw [hpre, hpos]
  have hwords : pySplit (pySlice (pyLower "I don't love Apple".toList) (13 - 100)
      (min "I don't love Apple".toList.length (13 + 100))) =
      ["i".toList, "don't".toList, "love".toList, "apple".toList] := by decide
  unfold analyze_keyword_based_stance
  rw [if_neg (by decide : ¬ ([13] : List Nat) = [])]
  simp only [List.map_cons, List.map_nil, hwords]
  rw [if_neg (List.cons_ne_nil _ _)]
  simp only [List.sum_cons, List.sum_nil, List.length_cons, List.length_nil]
  have hscore : calculate_keyword_score
      ["i".toList, "don't".toList, "love".toList, "apple".toList]
      (find_target_word_position
        ["i".toList, "don't".toList, "love".toList, "apple".toList]) < 0 := by
    unfold calculate_keyword_score find_target_word_position
    norm_num +decide [List.range', apply_modifiers, apply_modifiers.modScan,
      apply_negation, apply_negation.negScan, List.getD, min_def, max_def]
  push_cast
  rw [add_zero, div_one]
  exact hscore

theorem cacheGet_set {κ α : Type} [DecidableEq κ] (c : List (κ × α)) (k : κ)
    (v : α) : cacheGet (cacheSet c k v) k = some v := by
  unfold cacheSet cacheGet
  rw [if_pos rfl]

/-- C9: calling `classify_sentiment` twice with the same text, or
`classify_stance` twice with the same (text, target) pair — the second
call threaded through the cache state left by the first — yields the
same label and confidence (here: the very same result), whether the
second call is computed or served from the cache. -/
theorem c9_idempotent_under_cache :
    (∀ (pol : List Char → ScoreVector)
        (cache : List (List Char × SentimentResult)) (text : List Char),
        ((analyze_sentiment_cached pol
            (analyze_sentiment_cached pol cache text).2 text).1.sentiment =
          (analyze_sentiment_cached pol cache text).1.sentiment) ∧
        ((analyze_sentiment_cached pol
            (analyze_sentiment_cached pol cache text).2 text).1.confidence =
          (analyze_sentiment_cached pol cache text).1.confidence)) ∧
      (∀ (pol : List Char → ScoreVector)
        (cache : List ((List Char × List Char) × StanceResult))
        (text target : List Char),
        ((analyze_stance_cached pol
            (analyze_stance_cached pol cache text target).2 text target).1.stance =
          (analyze_stance_cached pol cache text target).1.stance) ∧
        ((analyze_stance_cached pol
            (analyze_stance_cached pol cache text target).2 text target).1.confidence =
          (analyze_stance_cached pol cache text target).1.confidence)) := by
  constructor
  · intro pol cache text
    suffices h : (analyze_sentiment_cached pol
        (analyze_sentiment_cached pol cache text).2 text).1 =
        (analyze_sentiment_cached pol cache text).1 by
      rw [h]
      exact ⟨rfl, rfl⟩
    by_cases hb : pyBlank text
    · have h1 : analyze_sentiment_cached pol cache text =
          (emptySentimentResult, cache) := by
        unfold analyze_sentiment_cached
        rw [if_pos hb]
      rw [h1, h1]
    · rcases hg : cacheGet cache text with _ | v
      · rcases hck : sentiment_check_text_length pol text with _ | r
        · have h1 : analyze_sentiment_cached pol cache text =
              (sentimentMain pol text,
                cacheSet cache text (sentimentMain pol text)) := by
            unfold analyze_sentiment_cached
            rw [if_neg hb, hg, hck]
          have h2 : analyze_sentiment_cached pol
              (cacheSet cache text (sentimentMain pol text)) text =
              (sentimentMain pol text,
                cacheSet cache text (sentimentMain pol text)) := by
            unfold analyze_sentiment_cached
            rw [if_neg hb, cacheGet_set]
          rw [h1]
          exact congrArg Prod.fst h2
        · have h1 : analyze_sentiment_cached pol cache text =
              (r, cacheSet cache text r) := by
            unfold analyze_sentiment_cached
            rw [if_neg hb, hg, hck]
          have h2 : analyze_sentiment_cached pol
              (cacheSet cache text r) text = (r, cacheSet cache text r) := by
            unfold analyze_sentiment_cached
            rw [if_neg hb, cacheGet_set]
          rw [h1]
          exact congrArg Prod.fst h2
      · have h1 : analyze_sentiment_cached pol cache text = (v, cache) := by
          unfold analyze_sentiment_cached
          rw [if_neg hb, hg]
        rw [h1, h1]
  · intro pol cache text target
    suffices h : (analyze_stance_cached pol
        (analyze_stance_cached pol cache text target).2 text target).1 =
        (analyze_stance_cached pol cache text target).1 by
      rw [h]
      exact ⟨rfl, rfl⟩
    by_cases hb : pyBlank text
    · have h1 : analyze_stance_cached pol cache text target =
          (emptyTextStanceResult target, cache) := by
        unfold analyze_stance_cached
        rw [if_pos hb]
      rw [h1, h1]
    · by_cases hbg : pyBlank target
      · have h1 : analyze_stance_cached pol cache text target =
            (emptyTargetStanceResult target, cache) := by
          unfold analyze_stance_cached
          rw [if_neg hb, if_pos hbg]
        rw [h1, h1]
      · rcases hg : cacheGet cache (text, target) with _ | v
        · rcases hck : stance_check_text_length pol text target with _ | r
          · have h1 : analyze_stance_cached pol cache text target =
                (stanceMain pol text target,
                  cacheSet cache (text, target) (stanceMain pol text target)) := by
              unfold analyze_stance_cached
              rw [if_neg hb, if_neg hbg, hg, hck]
            have h2 : analyze_stance_cached pol
                (cacheSet cache (text, target) (stanceMain pol text target))
                text target =
                (stanceMain pol text target,
                  cacheSet cache (text, target) (stanceMain pol text target)) := by
              unfold analyze_stance_cached
              rw [if_neg hb, if_neg hbg, cacheGet_set]
            rw [h1]
            exact congrArg Prod.fst h2
          · have h1 : analyze_stance_cached pol cache text target =
                (r, cacheSet cache (text, target) r) := by
              unfold analyze_stance_cached
              rw [if_neg hb, if_neg hbg, hg, hck]
            have h2 : analyze_stance_cached pol
                (cacheSet cache (text, target) r) text target =
                (r, cacheSet cache (text, target) r) := by
              unfold analyze_stance_cached
              rw [if_neg hb, if_neg hbg, cacheGet_set]
            rw [h1]
            exact congrArg Prod.fst h2
        · have h1 : analyze_stance_cached pol cache text target = (v, cache) := by
            unfold analyze_stance_cached
            rw [if_neg hb, if_neg hbg, hg]
          rw [h1, h1]

theorem collapseRepeatsAux_cons_same_sat {rest : List Char} {c : Char}
    {n : Nat} (h : 3 ≤ n) :
    collapseRepeatsAux (c :: rest) c n = collapseRepeatsAux rest c n := by
  conv_lhs => rw [collapseRepeatsAux]
  rw [if_pos rfl, if_pos h]

theorem collapseRepeatsAux_cons_same_lt {rest : List Char} {c : Char}
    {n : Nat} (h : ¬ 3 ≤ n) :
    collapseRepeatsAux (c :: rest) c n = c :: collapseRepeatsAux rest c (n + 1) := by
  conv_lhs => rw [collapseRepeatsAux]
  rw [if_pos rfl, if_neg h]

theorem collapseRepeatsAux_cons_ne {rest : List Char} {d c : Char}
    {n : Nat} (h : d ≠ c) :
    collapseRepeatsAux (d :: rest) c n = d :: collapseRepeatsAux rest d 1 := by
  conv_lhs => rw [collapseRepeatsAux]
  rw [if_neg h]

theorem rleAux_cons_same {rest : List Char} {c : Char} {n : Nat} :
    rleAux (c :: rest) c n = rleAux rest c (n + 1) := by
  conv_lhs => rw [rleAux]
  rw [if_pos rfl]

theorem rleAux_cons_ne {rest : List Char} {d c : Char} {n : Nat} (h : d ≠ c) :
    rleAux (d :: rest) c n = (c, n) :: rleAux rest d 1 := by
  conv_lhs => rw [rleAux]
  rw [if_neg h]

theorem rleAux_collapse :
    ∀ (l : List Char) (c : Char) (k : Nat), 1 ≤ k →
      rleAux (collapseRepeatsAux l c (min k 3)) c (min k 3) =
        (rleAux l c k).map (fun p => (p.1, min p.2 3)) := by
  intro l
  induction l with
  | nil =>
    intro c k _
    simp [collapseRepeatsAux, rleAux]
  | cons d rest ih =>
    intro c k hk
    by_cases hdc : d = c
    · subst hdc
      by_cases h3 : 3 ≤ k
      · have hmin : min k 3 = 3 := min_eq_right h3
        have hmin1 : min (k + 1) 3 = 3 := min_eq_right (by omega)
        rw [hmin, collapseRepeatsAux_cons_same_sat (by norm_num),
          rleAux_cons_same]
        have := ih d (k + 1) (by omega)
        rw [hmin1] at this
        exact this
      · have hmin : min k 3 = k := min_eq_left (by omega)
        have hmin1 : min (k + 1) 3 = k + 1 := min_eq_left (by omega)
        rw [hmin, collapseRepeatsAux_cons_same_lt (by omega),
          rleAux_cons_same, rleAux_cons_same]
        have := ih d (k + 1) (by omega)
        rw [hmin1] at this
        exact this
    · rw [collapseRepeatsAux_cons_ne hdc, rleAux_cons_ne hdc,
        rleAux_cons_ne hdc, List.map_cons]
      have := ih d 1 (by omega)
      rw [show min 1 3 = 1 from rfl] at this
      exact congrArg (List.cons (c, min k 3)) this

/-- C10: on the sentiment path, every text reaching the main analysis is
preprocessed by whitespace collapsing followed by replacing each run of
4 or more identical characters with exactly 3 copies (stated through the
run-length encodings), and the polarity primitive is applied to this
collapsed text, not to the original. -/
theorem c10_repeated_char_collapse :
    (∀ (pol : List Char → ScoreVector) (t : List Char),
        ¬ (pyStrip t).length < 3 → ¬ 5000 < (pyStrip t).length →
        ¬ 0.7 < calculate_symbol_ratio t →
        ¬ wordCount (preprocess_text t) < 3 →
        (analyze_sentiment pol t).scores =
          pol (collapseRepeats (squeezeWS (pyStrip t)))) ∧
      (∀ l : List Char,
        rle (collapseRepeats l) = (rle l).map fun p => (p.1, min p.2 3)) := by
  constructor
  · intro pol t h3 h5 hr hwc
    have hne : pyStrip t ≠ [] := by
      intro he
      rw [he] at h3
      exact h3 (by norm_num)
    have hck : sentiment_check_text_length pol t = none := by
      unfold sentiment_check_text_length
      dsimp only
      rw [if_neg h3, if_neg h5]
    have hsp : handle_special_cases pol t (preprocess_text t) = none := by
      unfold handle_special_cases
      dsimp only
      rw [if_neg hr, if_neg hwc]
    have hpre : preprocess_text t = collapseRepeats (squeezeWS (pyStrip t)) := by
      unfold preprocess_text
      rw [if_neg (by simp [pyBlank_false_of_strip_ne hne])]
    rw [sentiment_analyze_of_main hne hck]
    unfold sentimentMain
    dsimp only
    rw [hsp, ← hpre]
  · intro l
    cases l with
    | nil => rfl
    | cons c rest =>
      show rleAux (collapseRepeatsAux rest c 1) c 1 = _
      have := rleAux_collapse rest c 1 (by omega)
      rw [show min 1 3 = 1 from rfl] at this
      exact this

/-- Witness for C10 at the text "this is a gooooood day": the run of 7
'o's is collapsed to 3 before the polarity primitive sees the text. -/
theorem c10_repeated_char_collapse_witness :
    (¬ (pyStrip "this is a gooooood day".toList).length < 3) ∧
      (¬ 5000 < (pyStrip "this is a gooooood day".toList).length) ∧
      (¬ (0.7 : ℚ) < calculate_symbol_ratio "this is a gooooood day".toList) ∧
      (¬ wordCount (preprocess_text "this is a gooooood day".toList) < 3) ∧
      (analyze_sentiment neutralPolarity "this is a gooooood day".toList).scores =
        neutralPolarity
          (collapseRepeats (squeezeWS (pyStrip "this is a gooooood day".toList))) := by
  have hr : ¬ (0.7 : ℚ) <
      calculate_symbol_ratio "this is a gooooood day".toList := by
    rw [symbol_ratio_eval 0 0 22 (by decide) (by decide) (by decide) (by decide)]
    norm_num
  exact ⟨by decide, by decide, hr, by decide,
    c10_repeated_char_collapse.1 neutralPolarity _ (by decide) (by decide) hr
      (by decide)⟩

end AnalysisModel
